import Mathlib

/-!
Verification of the ai-feedback-miner feedback-analysis pipeline.

The backend HTTP layer is embedded from backend/server.js and the frontend
sentiment classification helpers from
frontend/src/components/AnalysisPage.tsx and HomePage.tsx.  The Python
brain service (hybrid_analyzer.py / analyze.py) is documented in the
repository but its source is not part of the snapshot; those components are
modelled from the specification, as marked on each definition.
-/

/-- One item of the analysis result, as produced by the brain service and
stored by the backend (backend/server.js, analysisSchema.summary.items). -/
structure AnalysisItem where
  text : String
  clean : String
  cluster : Nat
  sentiment : ℚ
deriving DecidableEq

/-- One cluster summary (backend/server.js, analysisSchema.summary.clusters,
extended with the description and labeling method fields the brain service
emits). -/
structure ClusterSummary where
  cluster : Nat
  label : String
  keywords : List String
  volume : Nat
  avg_sentiment : ℚ
  roi : ℚ
  description : String
  labeling_method : String
deriving DecidableEq

/-- Optional cross-cluster enrichment output. -/
structure Insights where
  insights : List String
  recommendations : List (String × String × String)
  priority_areas : List String
deriving DecidableEq

/-- The full analysis result returned by the pipeline. -/
structure AnalysisResult where
  items : List AnalysisItem
  clusters : List ClusterSummary
  insights : Option Insights
deriving DecidableEq

/-- A stored feedback document (backend/server.js, feedbackSchema). -/
structure FeedbackDoc where
  text : String
  source : String
  createdAt : Nat
deriving DecidableEq

/-- A stored analysis record (backend/server.js, analysisSchema). -/
structure AnalysisRecord where
  n_clusters : Nat
  limit : Nat
  summary : AnalysisResult
deriving DecidableEq

/-- Body of a POST /analyze request; absent fields use the defaults. -/
structure AnalyzeRequest where
  n_clusters : Option Nat
  limit : Option Nat
deriving DecidableEq

/-- HTTP response of the analyze endpoint. -/
inductive HttpResponse where
  | ok (body : AnalysisResult)
  | err (status : Nat) (error : String) (details : String)
deriving DecidableEq

/-- Defaults of POST /analyze (backend/server.js line 152):
n_clusters defaults to 5 and limit to 1000. -/
def effectiveParams (body : AnalyzeRequest) : Nat × Nat :=
  (body.n_clusters.getD 5, body.limit.getD 1000)

/-- The Mongo sort order createdAt descending used by POST /analyze. -/
def byCreatedAtDesc (a b : FeedbackDoc) : Prop :=
  b.createdAt ≤ a.createdAt

instance : DecidableRel byCreatedAtDesc := fun a b =>
  inferInstanceAs (Decidable (b.createdAt ≤ a.createdAt))

instance : IsTotal FeedbackDoc byCreatedAtDesc :=
  ⟨fun a b => (Nat.le_total a.createdAt b.createdAt).symm⟩

instance : IsTrans FeedbackDoc byCreatedAtDesc :=
  ⟨fun _ _ _ h1 h2 => Nat.le_trans h2 h1⟩

/-- The query of POST /analyze (backend/server.js lines 155-158): the
feedback collection sorted by createdAt descending, truncated to the
limit.  MongoDB semantics of limit: a limit of 0 disables the cap and
returns every document. -/
def selectedFeedback (db : List FeedbackDoc) (limit : Nat) :
    List FeedbackDoc :=
  if limit = 0 then db.insertionSort byCreatedAtDesc
  else (db.insertionSort byCreatedAtDesc).take limit

/-- The text batch handed to the brain service: the selected documents
restricted to the text field (backend/server.js lines 158 and 164). -/
def findFeedbackForAnalyze (db : List FeedbackDoc) (limit : Nat) :
    List String :=
  (selectedFeedback db limit).map (fun f => f.text)

/-- callBrainService (backend/server.js lines 209-229): forwards the batch to
the brain service and rewraps any failure in a Brain service failed
message. -/
def callBrainService (brain : List String → Nat → Except String AnalysisResult)
    (texts : List String) (n_clusters : Nat) : Except String AnalysisResult :=
  match brain texts n_clusters with
  | .ok r => .ok r
  | .error e => .error ("Brain service failed: " ++ e)

/-- Outcome of one POST /analyze request: the HTTP response, the analysis
collection after the request, and how many times the brain service was
called. -/
structure AnalyzeOutcome where
  response : HttpResponse
  store : List AnalysisRecord
  brainCalls : Nat
deriving DecidableEq

/-- POST /analyze (backend/server.js lines 150-183).  The brain service is a
parameter; db is the feedback collection and store the analysis
collection.  An empty selection answers with an empty result before any
brain call; a brain failure is caught and answered with status 500 and
nothing is stored. -/
def postAnalyze (brain : List String → Nat → Except String AnalysisResult)
    (db : List FeedbackDoc) (store : List AnalysisRecord)
    (body : AnalyzeRequest) : AnalyzeOutcome :=
  let lim := (effectiveParams body).2
  let texts := findFeedbackForAnalyze db lim
  if texts.isEmpty then
    ⟨.ok ⟨[], [], none⟩, store, 0⟩
  else
    match callBrainService brain texts (effectiveParams body).1 with
    | .ok result =>
        ⟨.ok result, store ++ [⟨(effectiveParams body).1, lim, result⟩], 1⟩
    | .error e =>
        ⟨.err 500 "Failed to analyze feedback" e, store, 1⟩

/-- Split a character stream into maximal words of characters rejected by the
separator predicate p; cur accumulates the current word reversed. -/
def splitWords (p : Char → Bool) : List Char → List Char → List String
  | [], cur => if cur.isEmpty then [] else [String.mk cur.reverse]
  | c :: rest, cur =>
    if p c then
      if cur.isEmpty then splitWords p rest []
      else String.mk cur.reverse :: splitWords p rest []
    else splitWords p rest (c :: cur)

/-- Modelled from the spec: tokenization shared by the vectorizer and the
lexicon sentiment scorer (the brain service source is not in the
snapshot) - lower-case, split on non-alphanumeric characters. -/
def tokens (t : String) : List String :=
  splitWords (fun c => !c.isAlphanum) (t.toList.map Char.toLower) []

/-- Modelled from the spec: Text Normalizer (4.1) - lower-case, strip control
characters, collapse whitespace; empty input maps to the empty string. -/
def normalizeText (t : String) : String :=
  String.intercalate " "
    (splitWords (fun c => c.isWhitespace || decide (c.toNat < 32))
      (t.toList.map Char.toLower) [])

/-- Modelled from the spec: per-run document frequency of a term (4.2). -/
def docFreq (docs : List (List String)) (w : String) : Nat :=
  (docs.filter (fun d => d.contains w)).length

/-- Modelled from the spec: Vectorizer vocabulary (4.2) - a per-run term
space with a minimum document-frequency threshold. -/
def vocabulary (docs : List (List String)) (minDf : Nat) : List String :=
  docs.flatten.dedup.filter (fun w => decide (minDf ≤ docFreq docs w))

/-- Modelled from the spec: term-frequency feature vector over the run
vocabulary (4.2). -/
def vectorize (vocab : List String) (doc : List String) : List ℚ :=
  vocab.map (fun w => ((doc.count w : Nat) : ℚ))

/-- Modelled from the spec: squared Euclidean distance over the feature
space (4.3). -/
def sqDist (a b : List ℚ) : ℚ :=
  (a.zipWith (fun x y => (x - y) * (x - y)) b).sum

def vecAdd (a b : List ℚ) : List ℚ := a.zipWith (· + ·) b

def vecScale (c : ℚ) (v : List ℚ) : List ℚ := v.map (fun x => c * x)

/-- Modelled from the spec: running argmin over a distance list; i is the
index of the head of ds, best the current best index and bestd its
distance; a tie keeps the lower index (4.3). -/
def argminAux : List ℚ → Nat → Nat → ℚ → Nat
  | [], _, best, _ => best
  | d :: ds, i, best, bestd =>
    if d < bestd then argminAux ds (i + 1) i d
    else argminAux ds (i + 1) best bestd

/-- Modelled from the spec: index of the nearest centroid, equidistant points
going to the lowest cluster index (4.3). -/
def nearestIdx (cs : List (List ℚ)) (p : List ℚ) : Nat :=
  match cs with
  | [] => 0
  | c :: rest => argminAux (rest.map (sqDist p)) 1 0 (sqDist p c)

/-- Modelled from the spec: centroid update - mean of the member points; an
empty cluster keeps its previous centroid (4.3). -/
def clusterMean (points : List (List ℚ)) (assign : List Nat)
    (old : List ℚ) (i : Nat) : List ℚ :=
  match ((points.zip assign).filter (fun p => p.2 == i)).map (fun p => p.1) with
  | [] => old
  | v :: vs => vecScale (1 / ((vs.length + 1 : Nat) : ℚ)) (vs.foldl vecAdd v)

/-- Modelled from the spec: iterative centroid refinement with a fixed
iteration cap, stopping early once the centroids stabilize (4.3). -/
def kmeansIter (points : List (List ℚ)) : Nat → List (List ℚ) → List Nat
  | 0, cs => points.map (nearestIdx cs)
  | n + 1, cs =>
    let assign := points.map (nearestIdx cs)
    let cs2 := (List.range cs.length).map
      (fun i => clusterMean points assign (cs.getD i []) i)
    if cs2 = cs then assign else kmeansIter points n cs2

/-- Modelled from the spec: the fixed maximum iteration count of 4.3. -/
def maxIters : Nat := 20

/-- Modelled from the spec: the effective cluster count, the requested count
clamped to at least 1 and at most the item count (4.3, 7). -/
def effectiveK (k n : Nat) : Nat := max 1 (min k n)

/-- Modelled from the spec: Cluster Engine (4.3) - clamps k, seeds the
centroids deterministically from the first vectors of the input and returns
one cluster index per input vector; an empty input yields an empty
assignment set. -/
def clusterEngine (points : List (List ℚ)) (k : Nat) : List Nat :=
  match points with
  | [] => []
  | _ :: _ =>
    kmeansIter points maxIters (points.take (effectiveK k points.length))

/-- Modelled from the spec: the sentiment lexicon of the deterministic
rule-based scorer (4.4; the VADER-based scorer of the brain service is not
in the snapshot). -/
def sentimentLexicon : List (String × ℚ) :=
  [("love", 3/4), ("great", 3/4), ("good", 1/2), ("awesome", 9/10),
   ("like", 2/5), ("nice", 2/5), ("fast", 3/10),
   ("crash", -(3/4)), ("crashes", -(3/4)), ("slow", -(1/2)),
   ("bad", -(1/2)), ("unusable", -(9/10)), ("bug", -(3/5)),
   ("confusing", -(2/5)), ("hate", -(4/5))]

/-- Modelled from the spec: lexicon weight of one token, 0 for a token
outside the lexicon (4.4). -/
def lexScore (w : String) : ℚ :=
  ((sentimentLexicon.find? (fun e => e.1 == w)).map (fun e => e.2)).getD 0

/-- Clamp a rational into the range -1..1. -/
def clampUnit (x : ℚ) : ℚ :=
  if x < -1 then -1 else if 1 < x then 1 else x

/-- Modelled from the spec: Sentiment Scorer (4.4) - deterministic, lexicon
based, total; the summed token weights are clamped into the range -1..1 and
a text with no scoreable token scores 0. -/
def sentiment_score (t : String) : ℚ :=
  clampUnit (((tokens t).map lexScore).sum)

/-- Modelled from the spec: keyword ordering - higher aggregate weight first,
ties broken alphabetically (4.5). -/
def keywordOrder (a b : String × ℚ) : Prop :=
  b.2 < a.2 ∨ (a.2 = b.2 ∧ a.1 ≤ b.1)

instance : DecidableRel keywordOrder := fun a b =>
  inferInstanceAs (Decidable (b.2 < a.2 ∨ (a.2 = b.2 ∧ a.1 ≤ b.1)))

/-- Modelled from the spec: Keyword Extractor (4.5) - top terms of a cluster
by aggregate member term weight; an empty cluster yields an empty list. -/
def clusterKeywords (vocab : List String) (docs : List (List String))
    (assign : List Nat) (i : Nat) (topN : Nat) : List String :=
  match ((docs.zip assign).filter (fun p => p.2 == i)).map (fun p => p.1) with
  | [] => []
  | m :: ms =>
    (((vocab.map (fun w =>
        (w, (((m :: ms).map (fun d => ((d.count w : Nat) : ℚ))).sum)))).insertionSort
      keywordOrder).take topN).map (fun p => p.1)

/-- Modelled from the spec: sentiment factor of the ROI formula - 1 minus
the average sentiment, scaled from the range -1..1 into 0..1 (4.6). -/
def sentimentFactor (s : ℚ) : ℚ := (1 - s) / 2

/-- Modelled from the spec: volume normalized by the largest cluster volume
of the same run (4.6). -/
def normalizeVolume (v vmax : Nat) : ℚ := (v : ℚ) / (vmax : ℚ)

/-- Modelled from the spec: the ROI formula of 4.6. -/
def roiScore (weight : ℚ) (vmax : Nat) (v : Nat) (s : ℚ) : ℚ :=
  normalizeVolume v vmax * sentimentFactor s * weight

/-- Modelled from the spec: the largest cluster volume of a run (4.6). -/
def maxVolume (cs : List ClusterSummary) : Nat :=
  (cs.map (fun c => c.volume)).foldl max 0

/-- Modelled from the spec: per-run configuration (6). -/
structure Config where
  impact_weight : ℚ
  min_cluster_count : Nat
  enrichment_enabled : Bool
deriving DecidableEq

/-- The deterministic part of the pipeline, before enrichment. -/
structure PipelineCore where
  items : List AnalysisItem
  clusters : List ClusterSummary
deriving DecidableEq

/-- Modelled from the spec: per-cluster summaries with heuristic labels
(4.3-4.6) - volume counts the assignments of the index, average sentiment is
the mean over the members, keywords come from the extractor, the label is
the top keyword (Uncategorized for an empty cluster) and the ROI follows 4.6
with empty clusters scored 0. -/
def mkSummaries (vocab : List String) (docs : List (List String))
    (assign : List Nat) (items : List AnalysisItem) (k2 : Nat)
    (weight : ℚ) : List ClusterSummary :=
  let vmax := ((List.range k2).map (fun i => assign.count i)).foldl max 0
  (List.range k2).map (fun i =>
    let vol := assign.count i
    let sents := (items.filter (fun it => it.cluster == i)).map
      (fun it => it.sentiment)
    let avg := if vol = 0 then 0 else sents.sum / (vol : ℚ)
    let kws := clusterKeywords vocab docs assign i 5
    ⟨i, kws.headD "Uncategorized", kws, vol, avg,
      if vol = 0 then 0 else roiScore weight vmax vol avg,
      "", "heuristic"⟩)

/-- Modelled from the spec: normalization stage (4.1) - each raw text paired
with its cleaned form, items whose cleaned text is empty dropped before
clustering. -/
def keptItems (texts : List String) : List (String × String) :=
  (texts.map (fun t => (t, normalizeText t))).filter (fun p => p.2 != "")

/-- Modelled from the spec: the tokenized corpus of one run (4.2). -/
def runDocs (texts : List String) : List (List String) :=
  (keptItems texts).map (fun p => tokens p.2)

/-- Modelled from the spec: the per-run vocabulary (4.2). -/
def runVocab (texts : List String) : List String :=
  vocabulary (runDocs texts) 1

/-- Modelled from the spec: the feature matrix of one run (4.2). -/
def runVectors (texts : List String) : List (List ℚ) :=
  (runDocs texts).map (vectorize (runVocab texts))

/-- Modelled from the spec: the cluster assignment of one run (4.3). -/
def runAssign (texts : List String) (k : Nat) : List Nat :=
  clusterEngine (runVectors texts) k

/-- Modelled from the spec: the per-item analysis rows - raw text, cleaned
text, assigned cluster and sentiment score (3, 4.4). -/
def runItems (texts : List String) (k : Nat) : List AnalysisItem :=
  ((keptItems texts).zip (runAssign texts k)).map
    (fun p => ⟨p.1.1, p.1.2, p.2, sentiment_score p.1.1⟩)

/-- Modelled from the spec: deterministic pipeline stages 4.1-4.6 -
normalize, drop the items whose cleaned text is empty, vectorize over the
per-run vocabulary, cluster with the clamped cluster count, score sentiment
per item and summarize per cluster with heuristic labels. -/
def corePipeline (texts : List String) (k : Nat) (cfg : Config) :
    PipelineCore :=
  ⟨runItems texts k,
    mkSummaries (runVocab texts) (runDocs texts) (runAssign texts k)
      (runItems texts k) (effectiveK k (runVectors texts).length)
      cfg.impact_weight⟩

/-- Modelled from the spec: the external enrichment capability (6) - a
batched cluster labeling request and a cross-cluster insights request, each
of which may fail (none). -/
structure EnrichmentCapability where
  label_clusters : List ClusterSummary → Option (List (Nat × String × String))
  generate_insights : List ClusterSummary → Option Insights

/-- Modelled from the spec: apply the batched labeling response to one
cluster - only the label, description and labeling method change; a cluster
absent from the response keeps its heuristic label (4.7). -/
def applyLabels (m : List (Nat × String × String)) (c : ClusterSummary) :
    ClusterSummary :=
  match m.find? (fun e => e.1 == c.cluster) with
  | none => c
  | some e =>
      ⟨c.cluster, e.2.1, c.keywords, c.volume, c.avg_sentiment, c.roi,
        e.2.2, "enriched"⟩

/-- Modelled from the spec: Insight Orchestrator (4.7) - with an available
capability it attempts exactly one batched labeling call and then exactly
one insights call, with no retry; an unavailable or misconfigured capability
is skipped entirely.  The second component counts external calls. -/
def orchestrate (cap : Option EnrichmentCapability) (core : PipelineCore) :
    AnalysisResult × Nat :=
  match cap with
  | none => (⟨core.items, core.clusters, none⟩, 0)
  | some c =>
    let labeled :=
      match c.label_clusters core.clusters with
      | none => core.clusters
      | some m => core.clusters.map (applyLabels m)
    (⟨core.items, labeled, c.generate_insights labeled⟩, 2)

/-- Modelled from the spec: the pipeline entry point analyze(items, k,
config) (6, 7) - an empty or all-empty batch returns the empty result with
no external call; otherwise the deterministic core runs and the orchestrator
attempts at most two external calls when enrichment is enabled.  The second
component counts external calls. -/
def analyze (cap : Option EnrichmentCapability) (texts : List String)
    (k : Nat) (cfg : Config) : AnalysisResult × Nat :=
  let core := corePipeline texts k cfg
  if core.items.isEmpty then (⟨[], [], none⟩, 0)
  else if cfg.enrichment_enabled then orchestrate cap core
  else (⟨core.items, core.clusters, none⟩, 0)

/-- The enrichment-independent fields of a cluster summary: index, keywords,
volume, average sentiment and ROI. -/
def coreView (c : ClusterSummary) : Nat × List String × Nat × ℚ × ℚ :=
  (c.cluster, c.keywords, c.volume, c.avg_sentiment, c.roi)

/-- getSentimentLabel from frontend AnalysisPage.tsx lines 68-72. -/
def getSentimentLabel (sentiment : ℚ) : String :=
  if sentiment > 1/10 then "Positive"
  else if sentiment < -(1/10) then "Negative"
  else "Neutral"

/-- getSentimentLabel from frontend HomePage.tsx lines 78-82. -/
def getSentimentLabelHome (sentiment : ℚ) : String :=
  if sentiment > 1/10 then "Positive"
  else if sentiment < -(1/10) then "Negative"
  else "Neutral"

/-- The sentiment filter choices of AnalysisPage.tsx. -/
inductive SentimentFilter where
  | all
  | positive
  | negative
  | neutral
deriving DecidableEq

/-- The cluster sentiment filter of AnalysisPage.tsx lines 483-495. -/
def clusterFilterPred (f : SentimentFilter) (c : ClusterSummary) : Bool :=
  match f with
  | .all => true
  | .positive => decide (c.avg_sentiment > 1/10)
  | .negative => decide (c.avg_sentiment < -(1/10))
  | .neutral =>
      decide (c.avg_sentiment ≥ -(1/10)) && decide (c.avg_sentiment ≤ 1/10)

/-- The item sentiment filter of AnalysisPage.tsx lines 626-635. -/
def itemFilterPred (f : SentimentFilter) (it : AnalysisItem) : Bool :=
  match f with
  | .all => true
  | .positive => decide (it.sentiment > 1/10)
  | .negative => decide (it.sentiment < -(1/10))
  | .neutral =>
      decide (it.sentiment ≥ -(1/10)) && decide (it.sentiment ≤ 1/10)

/-- The positive feedback counter of the AnalysisPage summary stats
(lines 308-313). -/
def positiveCount (items : List AnalysisItem) : Nat :=
  (items.filter (fun it => decide (it.sentiment > 1/10))).length

/-- The negative feedback counter of the AnalysisPage summary stats
(lines 314-321). -/
def negativeCount (items : List AnalysisItem) : Nat :=
  (items.filter (fun it => decide (it.sentiment < -(1/10)))).length

lemma argminAux_lt (ds : List ℚ) :
    ∀ i best bestd, best < i → argminAux ds i best bestd < i + ds.length := by
  induction ds with
  | nil => intro i best bestd h; simpa [argminAux] using h
  | cons d ds ih =>
    intro i best bestd h
    simp only [argminAux]
    split
    · have := ih (i + 1) i d (Nat.lt_succ_self i)
      simpa [Nat.add_assoc, Nat.add_comm, Nat.add_left_comm] using this
    · have := ih (i + 1) best bestd (Nat.lt_succ_of_lt h)
      simp only [List.length_cons]
      omega

lemma nearestIdx_lt (cs : List (List ℚ)) (p : List ℚ) (h : cs ≠ []) :
    nearestIdx cs p < cs.length := by
  match cs with
  | [] => exact absurd rfl h
  | c :: rest =>
    have h2 := argminAux_lt (rest.map (sqDist p)) 1 0 (sqDist p c) Nat.one_pos
    simp only [List.length_map] at h2
    simp only [nearestIdx, List.length_cons]
    omega

lemma kmeansIter_length (n : Nat) : ∀ (points : List (List ℚ)) cs,
    (kmeansIter points n cs).length = points.length := by
  induction n with
  | zero => intro points cs; simp [kmeansIter]
  | succ n ih =>
    intro points cs
    simp only [kmeansIter]
    split
    · simp
    · exact ih points _

lemma kmeansIter_lt (n : Nat) : ∀ (points : List (List ℚ)) cs, cs ≠ [] →
    ∀ a ∈ kmeansIter points n cs, a < cs.length := by
  induction n with
  | zero =>
    intro points cs h a ha
    simp only [kmeansIter, List.mem_map] at ha
    obtain ⟨p, _, rfl⟩ := ha
    exact nearestIdx_lt cs p h
  | succ n ih =>
    intro points cs h a ha
    simp only [kmeansIter] at ha
    split at ha
    · simp only [List.mem_map] at ha
      obtain ⟨p, _, rfl⟩ := ha
      exact nearestIdx_lt cs p h
    · have hlen : ((List.range cs.length).map
          (fun i => clusterMean points (points.map (nearestIdx cs))
            (cs.getD i []) i)).length = cs.length := by
        simp
      have hne : ((List.range cs.length).map
          (fun i => clusterMean points (points.map (nearestIdx cs))
            (cs.getD i []) i)) ≠ [] := by
        intro hnil
        rw [hnil] at hlen
        simp at hlen
        exact h (List.eq_nil_of_length_eq_zero hlen.symm)
      have := ih points _ hne a ha
      rwa [hlen] at this

lemma clusterEngine_length (points : List (List ℚ)) (k : Nat) :
    (clusterEngine points k).length = points.length := by
  match points with
  | [] => rfl
  | p :: rest => exact kmeansIter_length maxIters (p :: rest) _

lemma effectiveK_le_len (k n : Nat) (h : 0 < n) : effectiveK k n ≤ n := by
  simp only [effectiveK]; omega

lemma effectiveK_pos (k n : Nat) : 0 < effectiveK k n := by
  simp only [effectiveK]; omega

lemma clusterEngine_lt (points : List (List ℚ)) (k : Nat) :
    ∀ a ∈ clusterEngine points k, a < effectiveK k points.length := by
  match points with
  | [] => intro a ha; simp [clusterEngine] at ha
  | p :: rest =>
    intro a ha
    have hpos : 0 < (p :: rest).length := by simp
    have hlen : ((p :: rest).take (effectiveK k (p :: rest).length)).length
        = effectiveK k (p :: rest).length := by
      rw [List.length_take]
      exact Nat.min_eq_left (effectiveK_le_len _ _ hpos)
    have hne : (p :: rest).take (effectiveK k (p :: rest).length) ≠ [] := by
      intro hnil
      have hpos2 := effectiveK_pos k (p :: rest).length
      rw [hnil] at hlen
      simp only [List.length_nil] at hlen
      omega
    have := kmeansIter_lt maxIters (p :: rest) _ hne a ha
    rwa [hlen] at this

/-- C8: the cluster engine clamps the requested cluster count to
max(1, min(k, N)): an empty input yields an empty assignment set, every
input vector receives exactly one assignment, and every assigned index is
below the effective count - clamping is total and never an error. -/
theorem C8_cluster_clamp (points : List (List ℚ)) (k : Nat) :
    clusterEngine [] k = []
    ∧ (clusterEngine points k).length = points.length
    ∧ (∀ a ∈ clusterEngine points k, a < effectiveK k points.length)
    ∧ effectiveK k points.length = max 1 (min k points.length) := by
  exact ⟨rfl, clusterEngine_length points k, clusterEngine_lt points k, rfl⟩

lemma sum_map_add_nat (r : List Nat) (f g : Nat → Nat) :
    (r.map (fun i => f i + g i)).sum = (r.map f).sum + (r.map g).sum := by
  induction r with
  | nil => simp
  | cons a r ih => simp only [List.map_cons, List.sum_cons, ih]; omega

lemma sum_indicator_range_zero (k x : Nat) (h : k ≤ x) :
    ((List.range k).map (fun i => if i = x then (1 : Nat) else 0)).sum = 0 := by
  apply List.sum_eq_zero
  intro y hy
  simp only [List.mem_map, List.mem_range] at hy
  obtain ⟨i, hi, rfl⟩ := hy
  have hix : i ≠ x := by omega
  simp [hix]

lemma sum_indicator_range (k x : Nat) (h : x < k) :
    ((List.range k).map (fun i => if i = x then (1 : Nat) else 0)).sum = 1 := by
  induction k with
  | zero => omega
  | succ k ih =>
    rw [List.range_succ, List.map_append, List.sum_append]
    rcases Nat.lt_or_ge x k with hx | hx
    · have hkx : k ≠ x := by omega
      simp [ih hx, hkx]
    · have hxk : x = k := by omega
      subst hxk
      simp [sum_indicator_range_zero x x (Nat.le_refl x)]

lemma sum_range_count (k : Nat) (l : List Nat) (h : ∀ x ∈ l, x < k) :
    ((List.range k).map (fun i => l.count i)).sum = l.length := by
  induction l with
  | nil => simp
  | cons x l ih =>
    have hx : x < k := h x (List.mem_cons_self x l)
    have hrest : ∀ y ∈ l, y < k := fun y hy => h y (List.mem_cons_of_mem x hy)
    have hcount : ((List.range k).map (fun i => (x :: l).count i))
        = (List.range k).map (fun i => l.count i + if i = x then 1 else 0) := by
      apply List.map_congr_left
      intro i _
      by_cases hix : i = x
      · subst hix; simp [List.count_cons]
      · simp [List.count_cons, hix, Ne.symm hix]
    rw [hcount, sum_map_add_nat, ih hrest, sum_indicator_range k x hx]
    simp

lemma length_filter_zip_snd {α : Type} (i : Nat) :
    ∀ (l1 : List α) (l2 : List Nat), l1.length = l2.length →
      ((l1.zip l2).filter (fun p => p.2 == i)).length = l2.count i := by
  intro l1
  induction l1 with
  | nil =>
    intro l2 h
    cases l2 with
    | nil => simp
    | cons b l2 => simp at h
  | cons a l1 ih =>
    intro l2 h
    cases l2 with
    | nil => simp at h
    | cons b l2 =>
      have h2 : l1.length = l2.length := by simpa using h
      by_cases hbi : b = i
      · subst hbi
        simp [List.count_cons, ih l2 h2, Nat.add_comm]
      · simp [List.count_cons, hbi, ih l2 h2, Ne.symm hbi]

lemma mkSummaries_fields (vocab : List String) (docs : List (List String))
    (assign : List Nat) (items : List AnalysisItem) (k2 : Nat) (w : ℚ) :
    ∀ c ∈ mkSummaries vocab docs assign items k2 w,
      c.cluster < k2 ∧ c.volume = assign.count c.cluster
      ∧ c.labeling_method = "heuristic"
      ∧ c.keywords = clusterKeywords vocab docs assign c.cluster 5 := by
  intro c hc
  simp only [mkSummaries, List.mem_map, List.mem_range] at hc
  obtain ⟨i, hi, rfl⟩ := hc
  exact ⟨hi, rfl, rfl, rfl⟩

lemma mkSummaries_volumes (vocab : List String) (docs : List (List String))
    (assign : List Nat) (items : List AnalysisItem) (k2 : Nat) (w : ℚ) :
    (mkSummaries vocab docs assign items k2 w).map (fun c => c.volume)
      = (List.range k2).map (fun i => assign.count i) := by
  simp only [mkSummaries, List.map_map]
  rfl

lemma runAssign_length (texts : List String) (k : Nat) :
    (runAssign texts k).length = (keptItems texts).length := by
  simp [runAssign, clusterEngine_length, runVectors, runDocs]

lemma runItems_length (texts : List String) (k : Nat) :
    (runItems texts k).length = (runAssign texts k).length := by
  simp [runItems, List.length_zip, runAssign_length]

lemma runItems_cluster_lt (texts : List String) (k : Nat) :
    ∀ it ∈ runItems texts k, it.cluster < effectiveK k (runVectors texts).length := by
  intro it hit
  simp only [runItems, List.mem_map] at hit
  obtain ⟨p, hp, rfl⟩ := hit
  exact clusterEngine_lt (runVectors texts) k p.2 (List.of_mem_zip hp).2

lemma runItems_filter_count (texts : List String) (k i : Nat) :
    ((runItems texts k).filter (fun it => it.cluster == i)).length
      = (runAssign texts k).count i := by
  have hcongr : ((runItems texts k).filter (fun it => it.cluster == i))
      = (((keptItems texts).zip (runAssign texts k)).filter
          (fun p => p.2 == i)).map
        (fun p => (⟨p.1.1, p.1.2, p.2, sentiment_score p.1.1⟩ : AnalysisItem)) := by
    simp only [runItems, List.filter_map]
    rfl
  rw [hcongr, List.length_map]
  exact length_filter_zip_snd i (keptItems texts) (runAssign texts k)
    (runAssign_length texts k).symm

/-- C3: in every pipeline run, every clustered item carries exactly one
cluster index in the range 0..k-1, every cluster summary volume equals the
number of items assigned to that cluster index, and the cluster volumes sum
to the number of clustered items. -/
theorem C3_cluster_invariants (texts : List String) (k : Nat) (cfg : Config)
    (hk : 0 < k) :
    (∀ it ∈ (corePipeline texts k cfg).items, it.cluster < k)
    ∧ (∀ c ∈ (corePipeline texts k cfg).clusters,
        c.volume = ((corePipeline texts k cfg).items.filter
          (fun it => it.cluster == c.cluster)).length)
    ∧ ((corePipeline texts k cfg).clusters.map (fun c => c.volume)).sum
        = (corePipeline texts k cfg).items.length := by
  refine ⟨?_, ?_, ?_⟩
  · intro it hit
    have h1 := runItems_cluster_lt texts k it hit
    have h2 : effectiveK k (runVectors texts).length ≤ k := by
      simp only [effectiveK]; omega
    omega
  · intro c hc
    have hf := mkSummaries_fields _ _ _ _ _ _ c hc
    simp only [corePipeline]
    rw [hf.2.1]
    exact (runItems_filter_count texts k c.cluster).symm
  · have hv := mkSummaries_volumes (runVocab texts) (runDocs texts)
      (runAssign texts k) (runItems texts k)
      (effectiveK k (runVectors texts).length) cfg.impact_weight
    have hlt : ∀ x ∈ runAssign texts k,
        x < effectiveK k (runVectors texts).length := by
      intro x hx
      exact clusterEngine_lt (runVectors texts) k x hx
    simp only [corePipeline]
    rw [hv, sum_range_count _ _ hlt, ← runItems_length]

/-- Witness for C3 at a concrete input. -/
theorem C3_cluster_invariants_witness :
    0 < 2
    ∧ ((∀ it ∈ (corePipeline ["great app", "bad crash"] 2 ⟨1, 1, true⟩).items,
        it.cluster < 2)
    ∧ (∀ c ∈ (corePipeline ["great app", "bad crash"] 2 ⟨1, 1, true⟩).clusters,
        c.volume = ((corePipeline ["great app", "bad crash"] 2 ⟨1, 1, true⟩).items.filter
          (fun it => it.cluster == c.cluster)).length)
    ∧ ((corePipeline ["great app", "bad crash"] 2 ⟨1, 1, true⟩).clusters.map
        (fun c => c.volume)).sum
        = (corePipeline ["great app", "bad crash"] 2 ⟨1, 1, true⟩).items.length) :=
  ⟨by decide, C3_cluster_invariants ["great app", "bad crash"] 2 ⟨1, 1, true⟩ (by decide)⟩

lemma applyLabels_coreView (m : List (Nat × String × String))
    (c : ClusterSummary) : coreView (applyLabels m c) = coreView c := by
  simp only [applyLabels]
  cases m.find? (fun e => e.1 == c.cluster) <;> rfl

lemma orchestrate_items (cap : Option EnrichmentCapability)
    (core : PipelineCore) : (orchestrate cap core).1.items = core.items := by
  cases cap <;> rfl

lemma orchestrate_coreView (cap : Option EnrichmentCapability)
    (core : PipelineCore) :
    (orchestrate cap core).1.clusters.map coreView
      = core.clusters.map coreView := by
  cases cap with
  | none => rfl
  | some c =>
    simp only [orchestrate]
    cases hl : c.label_clusters core.clusters with
    | none => rfl
    | some m =>
      simp only [List.map_map]
      apply List.map_congr_left
      intro x _
      exact applyLabels_coreView m x

lemma orchestrate_calls (cap : Option EnrichmentCapability)
    (core : PipelineCore) : (orchestrate cap core).2 ≤ 2 := by
  cases cap <;> simp [orchestrate]

lemma orchestrate_failed (fcap : EnrichmentCapability) (core : PipelineCore)
    (hfail : ∀ cs, fcap.label_clusters cs = none
      ∧ fcap.generate_insights cs = none) :
    orchestrate (some fcap) core = (⟨core.items, core.clusters, none⟩, 2) := by
  simp [orchestrate, (hfail core.clusters).1, (hfail core.clusters).2]

lemma corePipeline_heuristic (texts : List String) (k : Nat) (cfg : Config) :
    ∀ c ∈ (corePipeline texts k cfg).clusters,
      c.labeling_method = "heuristic" :=
  fun c hc => (mkSummaries_fields _ _ _ _ _ _ c hc).2.2.1

/-- C1: every invocation of the analyze pipeline makes at most 2 external
enrichment calls, regardless of the number of input items or clusters - one
batched cluster-labeling call and one insights call. -/
theorem C1_external_call_budget (cap : Option EnrichmentCapability)
    (texts : List String) (k : Nat) (cfg : Config) :
    (analyze cap texts k cfg).2 ≤ 2 := by
  simp only [analyze]
  split
  · simp
  · split
    · exact orchestrate_calls cap (corePipeline texts k cfg)
    · simp

/-- C2: analyzing an empty feedback batch returns the empty-but-valid result
with no exception, no store change, no brain-service call (backend
POST /analyze) and no enrichment call (pipeline entry point). -/
theorem C2_empty_batch
    (brain : List String → Nat → Except String AnalysisResult)
    (store : List AnalysisRecord) (body : AnalyzeRequest)
    (cap : Option EnrichmentCapability) (k : Nat) (cfg : Config) :
    postAnalyze brain [] store body
      = ⟨.ok ⟨[], [], none⟩, store, 0⟩
    ∧ analyze cap [] k cfg = (⟨[], [], none⟩, 0) := by
  refine ⟨?_, rfl⟩
  simp [postAnalyze, findFeedbackForAnalyze, selectedFeedback,
    List.insertionSort]

/-- C7: if the enrichment capability fails on every request, the items (and
so cluster membership and per-item sentiment), the per-cluster keywords,
volumes, average sentiments and ROI scores are identical to any run of the
same input with any other capability; the affected clusters keep their
heuristic labels, no insights are attached, and at most the two single
attempts are made. -/
theorem C7_enrichment_frame (fcap : EnrichmentCapability)
    (cap : Option EnrichmentCapability) (texts : List String) (k : Nat)
    (cfg : Config)
    (hfail : ∀ cs, fcap.label_clusters cs = none
      ∧ fcap.generate_insights cs = none) :
    (analyze (some fcap) texts k cfg).1.items
        = (analyze cap texts k cfg).1.items
    ∧ (analyze (some fcap) texts k cfg).1.clusters.map coreView
        = (analyze cap texts k cfg).1.clusters.map coreView
    ∧ (∀ c ∈ (analyze (some fcap) texts k cfg).1.clusters,
        c.labeling_method = "heuristic")
    ∧ (analyze (some fcap) texts k cfg).1.insights = none
    ∧ (analyze (some fcap) texts k cfg).2 ≤ 2 := by
  simp only [analyze]
  split
  · exact ⟨rfl, rfl, by intro c hc; simp at hc, rfl, by simp⟩
  · split
    · rw [orchestrate_failed fcap _ hfail]
      refine ⟨?_, ?_, ?_, rfl, by simp⟩
      · exact (orchestrate_items cap (corePipeline texts k cfg)).symm
      · exact (orchestrate_coreView cap (corePipeline texts k cfg)).symm
      · exact corePipeline_heuristic texts k cfg
    · exact ⟨rfl, rfl, corePipeline_heuristic texts k cfg, rfl, by simp⟩

/-- Witness for C7 at a concrete input. -/
theorem C7_enrichment_frame_witness :
    (∀ cs, (EnrichmentCapability.mk (fun _ => none) (fun _ => none)).label_clusters cs = none
      ∧ (EnrichmentCapability.mk (fun _ => none) (fun _ => none)).generate_insights cs = none)
    ∧ ((analyze (some (EnrichmentCapability.mk (fun _ => none) (fun _ => none)))
          ["great app", "bad crash"] 2 ⟨1, 1, true⟩).1.items
        = (analyze (some (EnrichmentCapability.mk
            (fun _ => some [(0, "Label", "Desc")])
            (fun _ => some ⟨["insight"], [], []⟩)))
          ["great app", "bad crash"] 2 ⟨1, 1, true⟩).1.items
      ∧ (analyze (some (EnrichmentCapability.mk (fun _ => none) (fun _ => none)))
          ["great app", "bad crash"] 2 ⟨1, 1, true⟩).1.clusters.map coreView
        = (analyze (some (EnrichmentCapability.mk
            (fun _ => some [(0, "Label", "Desc")])
            (fun _ => some ⟨["insight"], [], []⟩)))
          ["great app", "bad crash"] 2 ⟨1, 1, true⟩).1.clusters.map coreView
      ∧ (∀ c ∈ (analyze (some (EnrichmentCapability.mk (fun _ => none) (fun _ => none)))
          ["great app", "bad crash"] 2 ⟨1, 1, true⟩).1.clusters,
          c.labeling_method = "heuristic")
      ∧ (analyze (some (EnrichmentCapability.mk (fun _ => none) (fun _ => none)))
          ["great app", "bad crash"] 2 ⟨1, 1, true⟩).1.insights = none
      ∧ (analyze (some (EnrichmentCapability.mk (fun _ => none) (fun _ => none)))
          ["great app", "bad crash"] 2 ⟨1, 1, true⟩).2 ≤ 2) :=
  ⟨fun _ => ⟨rfl, rfl⟩,
    C7_enrichment_frame (EnrichmentCapability.mk (fun _ => none) (fun _ => none))
      (some (EnrichmentCapability.mk
        (fun _ => some [(0, "Label", "Desc")])
        (fun _ => some ⟨["insight"], [], []⟩)))
      ["great app", "bad crash"] 2 ⟨1, 1, true⟩
      (fun _ => ⟨rfl, rfl⟩)⟩

/-- C4: with a fixed nonnegative impact weight and average sentiments inside
the range -1..1, a cluster that simultaneously has the minimum average
sentiment and the maximum volume attains the maximum ROI of its run under
the formula of 4.6. -/
theorem C4_roi_monotone (cs : List ClusterSummary) (c : ClusterSummary)
    (w : ℚ) (hw : 0 ≤ w) (_hc : c ∈ cs)
    (hbound : ∀ d ∈ cs, -1 ≤ d.avg_sentiment ∧ d.avg_sentiment ≤ 1)
    (hmin : ∀ d ∈ cs, c.avg_sentiment ≤ d.avg_sentiment)
    (hmax : ∀ d ∈ cs, d.volume ≤ c.volume) :
    ∀ d ∈ cs, roiScore w (maxVolume cs) d.volume d.avg_sentiment
      ≤ roiScore w (maxVolume cs) c.volume c.avg_sentiment := by
  intro d hd
  have h1 : normalizeVolume d.volume (maxVolume cs)
      ≤ normalizeVolume c.volume (maxVolume cs) := by
    unfold normalizeVolume
    rcases Nat.eq_zero_or_pos (maxVolume cs) with h0 | hpos
    · rw [h0]
      simp
    · have hcast : (0 : ℚ) < (maxVolume cs : ℚ) := by exact_mod_cast hpos
      have hv : (d.volume : ℚ) ≤ (c.volume : ℚ) := by
        exact_mod_cast hmax d hd
      exact div_le_div_of_nonneg_right hv hcast.le
  have h2 : sentimentFactor d.avg_sentiment
      ≤ sentimentFactor c.avg_sentiment := by
    unfold sentimentFactor
    have := hmin d hd
    linarith
  have h3 : 0 ≤ sentimentFactor d.avg_sentiment := by
    unfold sentimentFactor
    have := (hbound d hd).2
    linarith
  have h4 : 0 ≤ normalizeVolume c.volume (maxVolume cs) := by
    unfold normalizeVolume
    positivity
  unfold roiScore
  exact mul_le_mul_of_nonneg_right (mul_le_mul h1 h2 h3 h4) hw

/-- Witness for C4 at a concrete input. -/
theorem C4_roi_monotone_witness :
    (0 : ℚ) ≤ 1
    ∧ (⟨0, "a", [], 2, 0, 0, "", "heuristic"⟩ : ClusterSummary)
        ∈ [(⟨0, "a", [], 2, 0, 0, "", "heuristic"⟩ : ClusterSummary),
           ⟨1, "b", [], 1, 1, 0, "", "heuristic"⟩]
    ∧ (∀ d ∈ [(⟨0, "a", [], 2, 0, 0, "", "heuristic"⟩ : ClusterSummary),
           ⟨1, "b", [], 1, 1, 0, "", "heuristic"⟩],
        -1 ≤ d.avg_sentiment ∧ d.avg_sentiment ≤ 1)
    ∧ (∀ d ∈ [(⟨0, "a", [], 2, 0, 0, "", "heuristic"⟩ : ClusterSummary),
           ⟨1, "b", [], 1, 1, 0, "", "heuristic"⟩],
        (⟨0, "a", [], 2, 0, 0, "", "heuristic"⟩ : ClusterSummary).avg_sentiment
          ≤ d.avg_sentiment)
    ∧ (∀ d ∈ [(⟨0, "a", [], 2, 0, 0, "", "heuristic"⟩ : ClusterSummary),
           ⟨1, "b", [], 1, 1, 0, "", "heuristic"⟩],
        d.volume ≤ (⟨0, "a", [], 2, 0, 0, "", "heuristic"⟩ : ClusterSummary).volume)
    ∧ (∀ d ∈ [(⟨0, "a", [], 2, 0, 0, "", "heuristic"⟩ : ClusterSummary),
           ⟨1, "b", [], 1, 1, 0, "", "heuristic"⟩],
        roiScore 1 (maxVolume [(⟨0, "a", [], 2, 0, 0, "", "heuristic"⟩ : ClusterSummary),
           ⟨1, "b", [], 1, 1, 0, "", "heuristic"⟩]) d.volume d.avg_sentiment
          ≤ roiScore 1 (maxVolume [(⟨0, "a", [], 2, 0, 0, "", "heuristic"⟩ : ClusterSummary),
           ⟨1, "b", [], 1, 1, 0, "", "heuristic"⟩])
            (⟨0, "a", [], 2, 0, 0, "", "heuristic"⟩ : ClusterSummary).volume
            (⟨0, "a", [], 2, 0, 0, "", "heuristic"⟩ : ClusterSummary).avg_sentiment) :=
  ⟨by decide, by decide, by decide, by decide, by decide,
    C4_roi_monotone
      [⟨0, "a", [], 2, 0, 0, "", "heuristic"⟩, ⟨1, "b", [], 1, 1, 0, "", "heuristic"⟩]
      ⟨0, "a", [], 2, 0, 0, "", "heuristic"⟩ 1
      (by decide) (by decide) (by decide) (by decide) (by decide)⟩

lemma getSentimentLabel_eq_pos (s : ℚ) :
    getSentimentLabel s = "Positive" ↔ s > 1/10 := by
  unfold getSentimentLabel
  split_ifs with h1 h2
  · exact iff_of_true rfl h1
  · exact iff_of_false (by decide) h1
  · exact iff_of_false (by decide) h1

lemma getSentimentLabel_eq_neg (s : ℚ) :
    getSentimentLabel s = "Negative" ↔ s < -(1/10) := by
  unfold getSentimentLabel
  split_ifs with h1 h2
  · exact iff_of_false (by decide) (by linarith)
  · exact iff_of_true rfl h2
  · exact iff_of_false (by decide) h2

lemma getSentimentLabel_eq_neut (s : ℚ) :
    getSentimentLabel s = "Neutral" ↔ (-(1/10) ≤ s ∧ s ≤ 1/10) := by
  unfold getSentimentLabel
  split_ifs with h1 h2
  · refine iff_of_false (by decide) ?_
    rintro ⟨_, h⟩
    linarith
  · refine iff_of_false (by decide) ?_
    rintro ⟨h, _⟩
    linarith
  · exact iff_of_true rfl ⟨by linarith [not_lt.mp h2], not_lt.mp h1⟩

/-- C5: the threshold constant 0.1 defines the sentiment classification
everywhere the snapshot classifies sentiment: positive iff above 0.1,
negative iff below -0.1, neutral otherwise, identically in the label
helpers of both frontend pages, the cluster filter, the item filter and
the aggregate counters. -/
theorem C5_sentiment_threshold (s : ℚ) (c : ClusterSummary)
    (it : AnalysisItem) (items : List AnalysisItem) :
    (getSentimentLabel s = "Positive" ↔ s > 1/10)
    ∧ (getSentimentLabel s = "Negative" ↔ s < -(1/10))
    ∧ (getSentimentLabel s = "Neutral" ↔ (-(1/10) ≤ s ∧ s ≤ 1/10))
    ∧ getSentimentLabelHome s = getSentimentLabel s
    ∧ (clusterFilterPred .positive c = true
        ↔ getSentimentLabel c.avg_sentiment = "Positive")
    ∧ (clusterFilterPred .negative c = true
        ↔ getSentimentLabel c.avg_sentiment = "Negative")
    ∧ (clusterFilterPred .neutral c = true
        ↔ getSentimentLabel c.avg_sentiment = "Neutral")
    ∧ (itemFilterPred .positive it = true
        ↔ getSentimentLabel it.sentiment = "Positive")
    ∧ (itemFilterPred .negative it = true
        ↔ getSentimentLabel it.sentiment = "Negative")
    ∧ (itemFilterPred .neutral it = true
        ↔ getSentimentLabel it.sentiment = "Neutral")
    ∧ positiveCount items = (items.filter (itemFilterPred .positive)).length
    ∧ negativeCount items = (items.filter (itemFilterPred .negative)).length := by
  refine ⟨getSentimentLabel_eq_pos s, getSentimentLabel_eq_neg s,
    getSentimentLabel_eq_neut s, rfl, ?_, ?_, ?_, ?_, ?_, ?_, rfl, rfl⟩
  · rw [getSentimentLabel_eq_pos]
    simp [clusterFilterPred]
  · rw [getSentimentLabel_eq_neg]
    simp [clusterFilterPred]
  · rw [getSentimentLabel_eq_neut]
    simp [clusterFilterPred]
  · rw [getSentimentLabel_eq_pos]
    simp [itemFilterPred]
  · rw [getSentimentLabel_eq_neg]
    simp [itemFilterPred]
  · rw [getSentimentLabel_eq_neut]
    simp [itemFilterPred]

/-- C6: when the brain service (the deterministic pipeline stages) fails on a
non-empty batch, POST /analyze answers with an explicit 500 failure and the
stored set of analysis records is unchanged. -/
theorem C6_brain_failure_atomic
    (brain : List String → Nat → Except String AnalysisResult)
    (db : List FeedbackDoc) (store : List AnalysisRecord)
    (body : AnalyzeRequest) (msg : String)
    (hne : findFeedbackForAnalyze db (effectiveParams body).2 ≠ [])
    (herr : brain (findFeedbackForAnalyze db (effectiveParams body).2)
      (effectiveParams body).1 = .error msg) :
    (postAnalyze brain db store body).store = store
    ∧ (postAnalyze brain db store body).response
        = .err 500 "Failed to analyze feedback"
            ("Brain service failed: " ++ msg) := by
  have hemp : (findFeedbackForAnalyze db (effectiveParams body).2).isEmpty
      = false := by
    cases h : findFeedbackForAnalyze db (effectiveParams body).2 with
    | nil => exact absurd h hne
    | cons a l => rfl
  simp only [postAnalyze, callBrainService, herr, hemp]
  exact ⟨rfl, rfl⟩

/-- Witness for C6 at a concrete input. -/
theorem C6_brain_failure_atomic_witness :
    findFeedbackForAnalyze [⟨"hi", "upload", 0⟩] (effectiveParams ⟨none, none⟩).2 ≠ []
    ∧ (fun (_ : List String) (_ : Nat) =>
        (Except.error "boom" : Except String AnalysisResult))
        (findFeedbackForAnalyze [⟨"hi", "upload", 0⟩] (effectiveParams ⟨none, none⟩).2)
        (effectiveParams ⟨none, none⟩).1 = .error "boom"
    ∧ ((postAnalyze (fun _ _ => .error "boom") [⟨"hi", "upload", 0⟩] [] ⟨none, none⟩).store = []
      ∧ (postAnalyze (fun _ _ => .error "boom") [⟨"hi", "upload", 0⟩] [] ⟨none, none⟩).response
          = .err 500 "Failed to analyze feedback" ("Brain service failed: " ++ "boom")) :=
  ⟨by decide, rfl,
    C6_brain_failure_atomic (fun _ _ => .error "boom") [⟨"hi", "upload", 0⟩]
      [] ⟨none, none⟩ "boom" (by decide) rfl⟩

/-- C9: the sentiment scorer is a deterministic total function - scoring a
text twice yields the same result, the score always lies in the range
-1..1, and a text none of whose tokens is in the lexicon scores 0. -/
theorem C9_sentiment_scorer_total (t : String) :
    sentiment_score t = sentiment_score t
    ∧ -1 ≤ sentiment_score t
    ∧ sentiment_score t ≤ 1
    ∧ ((∀ w ∈ tokens t, lexScore w = 0) → sentiment_score t = 0) := by
  refine ⟨rfl, ?_, ?_, ?_⟩
  · unfold sentiment_score clampUnit
    split_ifs with h1 h2
    · exact le_refl _
    · norm_num
    · linarith [not_lt.mp h1]
  · unfold sentiment_score clampUnit
    split_ifs with h1 h2
    · norm_num
    · exact le_refl _
    · exact not_lt.mp h2
  · intro h
    have hsum : ((tokens t).map lexScore).sum = 0 := by
      apply List.sum_eq_zero
      intro x hx
      simp only [List.mem_map] at hx
      obtain ⟨w, hw, rfl⟩ := hx
      exact h w hw
    unfold sentiment_score
    rw [hsum]
    norm_num [clampUnit]

/-- Witness for C9 at a concrete input. -/
theorem C9_sentiment_scorer_total_witness :
    (∀ w ∈ tokens "zzz qqq", lexScore w = 0)
    ∧ sentiment_score "zzz qqq" = 0 :=
  ⟨by decide, (C9_sentiment_scorer_total "zzz qqq").2.2.2 (by decide)⟩

/-- C10 counterexample: a POST /analyze request with limit 0 selects every
stored document, because a MongoDB limit of 0 disables the cap - so with
one stored document the batch is not bounded by the limit. -/
theorem C10_limit_zero_counterexample :
    ¬ ((selectedFeedback [⟨"hi", "upload", 0⟩] 0).length ≤ 0) := by
  decide

/-- C10 as amended: for every POST /analyze request with a positive limit
(in particular the default 1000) the batch handed to the pipeline holds at
most limit feedback items; a limit of 0 disables the cap and selects every
document.  In every case the batch is the most recently created feedback,
sorted by createdAt descending, every stored document left out of the batch
no newer than any selected one, restricted to the text field, and the
defaults are 5 clusters and a limit of 1000. -/
theorem C10_analyze_batch_selection (db : List FeedbackDoc) (lim : Nat) :
    (0 < lim → (selectedFeedback db lim).length ≤ lim)
    ∧ selectedFeedback db 0 = db.insertionSort byCreatedAtDesc
    ∧ List.Sorted byCreatedAtDesc (selectedFeedback db lim)
    ∧ (∀ x ∈ selectedFeedback db lim, x ∈ db)
    ∧ (∀ x ∈ selectedFeedback db lim, ∀ y ∈ db,
        y ∉ selectedFeedback db lim → y.createdAt ≤ x.createdAt)
    ∧ findFeedbackForAnalyze db lim
        = (selectedFeedback db lim).map (fun f => f.text)
    ∧ effectiveParams ⟨none, none⟩ = (5, 1000) := by
  refine ⟨?_, ?_, ?_, ?_, ?_, rfl, rfl⟩
  · intro hlim
    rw [selectedFeedback, if_neg (Nat.pos_iff_ne_zero.mp hlim),
      List.length_take]
    exact min_le_left _ _
  · rw [selectedFeedback, if_pos rfl]
  · rw [selectedFeedback]
    split
    · exact List.sorted_insertionSort byCreatedAtDesc db
    · exact List.Pairwise.sublist (List.take_sublist lim _)
        (List.sorted_insertionSort byCreatedAtDesc db)
  · intro x hx
    rw [selectedFeedback] at hx
    have hmem : x ∈ db.insertionSort byCreatedAtDesc := by
      split at hx
      · exact hx
      · exact List.mem_of_mem_take hx
    exact (List.perm_insertionSort byCreatedAtDesc db).mem_iff.mp hmem
  · intro x hx y hy hyn
    have hys : y ∈ db.insertionSort byCreatedAtDesc :=
      (List.perm_insertionSort byCreatedAtDesc db).mem_iff.mpr hy
    by_cases h0 : lim = 0
    · rw [selectedFeedback, if_pos h0] at hyn
      exact absurd hys hyn
    · rw [selectedFeedback, if_neg h0] at hx hyn
      have hyd : y ∈ (db.insertionSort byCreatedAtDesc).drop lim := by
        have hsplit := List.take_append_drop lim
          (db.insertionSort byCreatedAtDesc)
        have hor : y ∈ (db.insertionSort byCreatedAtDesc).take lim
            ∨ y ∈ (db.insertionSort byCreatedAtDesc).drop lim := by
          rw [← List.mem_append, hsplit]
          exact hys
        rcases hor with h | h
        · exact absurd h hyn
        · exact h
      exact (List.sorted_insertionSort byCreatedAtDesc
        db).rel_of_mem_take_of_mem_drop hx hyd

/-- Witness for C10 at a concrete input. -/
theorem C10_analyze_batch_selection_witness :
    0 < 1000
    ∧ (selectedFeedback [⟨"hi", "upload", 0⟩] 1000).length ≤ 1000 :=
  ⟨by decide,
    (C10_analyze_batch_selection [⟨"hi", "upload", 0⟩] 1000).1 (by decide)⟩
